import Mathlib

/-!
Verification development for the Prisma agent workflow repository.

Shallow embedding of:
  * `src/utils/cache_helper.py` (result cache lookup),
  * `src/core/nodes/execution_nodes.py` (`_cache_result`, cache write path),
  * `src/utils/capability_resolver.py` (`resolve_capability`),
  * `src/core/graph/decision_engine.py` (routing decisions),
  * `src/core/nodes/planning_nodes.py` (`plan_node`),
  * `src/core/nodes/capability_nodes.py` (`validate_node`, generation feedback),
  * `src/core/nodes/completion_nodes.py` (`finish_node`, `review_node`),
  * `src/core/tools.py` (`detect_finish` verdict parsing),
  * `src/utils/env_manager.py` (`install_packages`, the unified correction
    loop of `execute_code`, and its runtime missing-dependency recovery).

External effects (language-model calls, subprocess backends, the filesystem)
are modelled as explicit oracle parameters; everything the repository itself
computes (hashing, canonical JSON, routing, bookkeeping) is embedded as
executable Lean functions translated from the Python source.
-/

set_option maxRecDepth 100000

namespace Prisma

/-! ## Python value model: JSON-serializable values (no floats needed here)

Models the `dict`/`list`/`str`/`int`/`bool`/`None` values the repository
passes through `json.dumps`. An object is a key-value list (Python dicts have
unique keys; insertion order is irrelevant to the sorted-keys serialization
used by the cache). -/

inductive PyJson where
  | jNull : PyJson
  | jBool : Bool → PyJson
  | jInt : Int → PyJson
  | jStr : String → PyJson
  | jArr : List PyJson → PyJson
  | jObj : List (String × PyJson) → PyJson

/-! Python string primitives, over code-point lists (so that they are
structurally recursive and evaluate by reduction). -/

/-- Python `s.startswith(pre)`. -/
def pyStartsWith (s pre : String) : Bool :=
  pre.toList.isPrefixOf s.toList

/-- Python slicing `s[:n]` (by code points). -/
def pyTake (s : String) (n : Nat) : String :=
  String.mk (s.toList.take n)

/-- Python `s.lower()` (ASCII case mapping, which is all the repository
feeds it). -/
def pyLower (s : String) : String :=
  String.mk (s.toList.map Char.toLower)

/-- Left-to-right non-overlapping replacement scan for `str.replace`. -/
def replaceGo : Nat → List Char → List Char → List Char → List Char
  | 0, _, _, _ => []
  | _ + 1, [], _, _ => []
  | fuel + 1, c :: rest, pat, rep =>
    if pat.isPrefixOf (c :: rest) then
      rep ++ replaceGo fuel ((c :: rest).drop pat.length) pat rep
    else c :: replaceGo fuel rest pat rep

/-- Python `s.replace(pat, rep)` for a nonempty pattern. -/
def pyReplace (s pat rep : String) : String :=
  String.mk (replaceGo s.toList.length s.toList pat.toList rep.toList)

/-- Python `s.strip()` (whitespace at both ends). -/
def pyStrip (s : String) : String :=
  String.mk (((s.toList.dropWhile Char.isWhitespace).reverse.dropWhile
    Char.isWhitespace).reverse)

/-- Double-quote character, by code point. -/
def dq : Char := Char.ofNat 34

/-- Backslash character, by code point. -/
def bsl : Char := Char.ofNat 92

/-- Lower-case hex digit for a nibble, as produced by Python hex output. -/
def hexChar (n : Nat) : Char :=
  if n < 10 then Char.ofNat (48 + n) else Char.ofNat (87 + n)

/-- Four lower-case hex digits, most significant first (`\uXXXX` payload). -/
def hex4 (n : Nat) : String :=
  String.mk ((List.range 4).map (fun i => hexChar ((n >>> ((3 - i) * 4)) % 16)))

/-- One character of `json.dumps` default (ensure_ascii) string escaping:
`"` and the backslash get a backslash escape, the five control characters
with short escapes use them, every other character below 0x20 or at or
above 0x7f becomes `\uXXXX` (with a surrogate pair above 0xFFFF), and the
printable ASCII range passes through. -/
def jsonEscChar (c : Char) : String :=
  let n := c.toNat
  if c = dq then String.mk [bsl, dq]
  else if c = bsl then String.mk [bsl, bsl]
  else if n = 8 then String.mk [bsl, Char.ofNat 98]
  else if n = 9 then String.mk [bsl, Char.ofNat 116]
  else if n = 10 then String.mk [bsl, Char.ofNat 110]
  else if n = 12 then String.mk [bsl, Char.ofNat 102]
  else if n = 13 then String.mk [bsl, Char.ofNat 114]
  else if n < 32 then String.mk [bsl, Char.ofNat 117] ++ hex4 n
  else if n < 127 then String.singleton c
  else if n < 65536 then String.mk [bsl, Char.ofNat 117] ++ hex4 n
  else
    let m := n - 65536
    String.mk [bsl, Char.ofNat 117] ++ hex4 (55296 + m / 1024) ++
      String.mk [bsl, Char.ofNat 117] ++ hex4 (56320 + m % 1024)

/-- `json.dumps` rendering of a Python string literal. -/
def jsonQuote (s : String) : String :=
  String.singleton dq ++ String.join (s.toList.map jsonEscChar) ++ String.singleton dq

/-- Insert a key-value pair into a key-sorted list (string comparison on
keys, as Python `sorted` does for `sort_keys=True`). -/
def insertKv (p : String × PyJson) : List (String × PyJson) → List (String × PyJson)
  | [] => [p]
  | q :: rest => if p.1 ≤ q.1 then p :: q :: rest else q :: insertKv p rest

/-- Sort a key-value list by key. -/
def sortKvs (kvs : List (String × PyJson)) : List (String × PyJson) :=
  kvs.foldr insertKv []

mutual

/-- Recursively sort every object's keys (what `sort_keys=True` does at each
nesting level), leaving arrays in order. -/
def sortJson : PyJson → PyJson
  | .jNull => .jNull
  | .jBool b => .jBool b
  | .jInt n => .jInt n
  | .jStr s => .jStr s
  | .jArr xs => .jArr (sortJsonList xs)
  | .jObj kvs => .jObj (sortKvs (sortJsonKvs kvs))

/-- Pointwise `sortJson` over an array body. -/
def sortJsonList : List PyJson → List PyJson
  | [] => []
  | x :: rest => sortJson x :: sortJsonList rest

/-- Pointwise `sortJson` over object values. -/
def sortJsonKvs : List (String × PyJson) → List (String × PyJson)
  | [] => []
  | (k, v) :: rest => (k, sortJson v) :: sortJsonKvs rest

end

mutual

/-- Render a value the way `json.dumps` does with its default separators
`", "` and `": "` (objects must already be key-sorted; see `pyDumpsSorted`). -/
def pyDumps : PyJson → String
  | .jNull => "null"
  | .jBool b => cond b "true" "false"
  | .jInt n => toString n
  | .jStr s => jsonQuote s
  | .jArr xs => "[" ++ pyDumpsArr xs ++ "]"
  | .jObj kvs => "\x7b" ++ pyDumpsObj kvs ++ "\x7d"

/-- Comma-separated array items. -/
def pyDumpsArr : List PyJson → String
  | [] => ""
  | [x] => pyDumps x
  | x :: y :: rest => pyDumps x ++ ", " ++ pyDumpsArr (y :: rest)

/-- Comma-separated object entries. -/
def pyDumpsObj : List (String × PyJson) → String
  | [] => ""
  | [(k, v)] => jsonQuote k ++ ": " ++ pyDumps v
  | (k, v) :: q :: rest => jsonQuote k ++ ": " ++ pyDumps v ++ ", " ++ pyDumpsObj (q :: rest)

end

/-- `json.dumps(v, sort_keys=True)`. -/
def pyDumpsSorted (v : PyJson) : String :=
  pyDumps (sortJson v)

/-! ## SHA-256 (pure, executable)

Faithful implementation of FIPS 180-4 SHA-256 over byte lists, used by both
cache key computations (`hashlib.sha256(...).hexdigest()[:16]`). -/

/-- Modulus for 32-bit words. -/
def m32 : Nat := 4294967296

/-- UTF-8 bytes of one character (what Python `str.encode()` produces). -/
def utf8Char (c : Char) : List Nat :=
  let n := c.toNat
  if n < 128 then [n]
  else if n < 2048 then [192 + n / 64, 128 + n % 64]
  else if n < 65536 then [224 + n / 4096, 128 + (n / 64) % 64, 128 + n % 64]
  else [240 + n / 262144, 128 + (n / 4096) % 64, 128 + (n / 64) % 64, 128 + n % 64]

/-- UTF-8 bytes of a string. -/
def utf8Bytes (s : String) : List Nat :=
  (s.toList.map utf8Char).foldr (· ++ ·) []

/-- 32-bit right rotation. -/
def rotr (w n : Nat) : Nat :=
  ((w >>> n) ||| (w <<< (32 - n))) % m32

/-- Big sigma-0. -/
def bsig0 (x : Nat) : Nat := rotr x 2 ^^^ rotr x 13 ^^^ rotr x 22

/-- Big sigma-1. -/
def bsig1 (x : Nat) : Nat := rotr x 6 ^^^ rotr x 11 ^^^ rotr x 25

/-- Small sigma-0. -/
def ssig0 (x : Nat) : Nat := rotr x 7 ^^^ rotr x 18 ^^^ (x >>> 3)

/-- Small sigma-1. -/
def ssig1 (x : Nat) : Nat := rotr x 17 ^^^ rotr x 19 ^^^ (x >>> 10)

/-- Choice function. -/
def chFn (x y z : Nat) : Nat := (x &&& y) ^^^ ((x ^^^ 4294967295) &&& z)

/-- Majority function. -/
def majFn (x y z : Nat) : Nat := (x &&& y) ^^^ (x &&& z) ^^^ (y &&& z)

/-- The first sixty-four primes, from which FIPS 180-4 derives the SHA-256
round constants and initial state. -/
def first64Primes : List Nat :=
  [2, 3, 5, 7, 11, 13, 17, 19, 23, 29, 31, 37, 41, 43, 47, 53,
   59, 61, 67, 71, 73, 79, 83, 89, 97, 101, 103, 107, 109, 113, 127, 131,
   137, 139, 149, 151, 157, 163, 167, 173, 179, 181, 191, 193, 197, 199, 211, 223,
   227, 229, 233, 239, 241, 251, 257, 263, 269, 271, 277, 281, 283, 293, 307, 311]

/-- Binary search step for integer roots: maintains lo with lo^e at most n
and hi with n below hi^e. -/
def rootSearch (pw : Nat → Nat) (n : Nat) : Nat → Nat → Nat → Nat
  | 0, lo, _ => lo
  | fuel + 1, lo, hi =>
    if hi ≤ lo + 1 then lo
    else
      let mid := (lo + hi) / 2
      if pw mid ≤ n then rootSearch pw n fuel mid hi
      else rootSearch pw n fuel lo mid

/-- Floor of the square root (binary search, fuel-based so it evaluates by
plain reduction). -/
def natSqrtFl (n : Nat) : Nat :=
  rootSearch (fun m => m * m) n 200 0 (n + 1)

/-- Floor of the cube root. -/
def natCbrtFl (n : Nat) : Nat :=
  rootSearch (fun m => m * m * m) n 200 0 (n + 1)

/-- SHA-256 round constants: the first 32 bits of the fractional parts of
the cube roots of the first sixty-four primes. -/
def K256 : List Nat :=
  first64Primes.map (fun p => natCbrtFl (p * 2 ^ 96) % m32)

/-- SHA-256 initial hash state: the first 32 bits of the fractional parts
of the square roots of the first eight primes. -/
def H256 : List Nat :=
  (first64Primes.take 8).map (fun p => natSqrtFl (p * 2 ^ 64) % m32)

/-- List element with 0 default (all accesses below are in range). -/
def nth (xs : List Nat) (i : Nat) : Nat := xs.getD i 0

/-- Merkle-Damgard padding: append `0x80`, zeros, then the 64-bit big-endian
bit length, reaching a multiple of 64 bytes. -/
def sha256Pad (msg : List Nat) : List Nat :=
  let len := msg.length
  let zeros := (119 - len % 64) % 64
  let bitLen := len * 8
  msg ++ [128] ++ List.replicate zeros 0 ++
    (List.range 8).map (fun i => (bitLen >>> ((7 - i) * 8)) % 256)

/-- Combine bytes into big-endian 32-bit words. -/
def bytesToWordsGo : Nat → List Nat → List Nat
  | 0, _ => []
  | _ + 1, b0 :: b1 :: b2 :: b3 :: rest =>
      (((b0 * 256 + b1) * 256 + b2) * 256 + b3) :: bytesToWordsGo rest.length rest
  | _ + 1, _ => []

/-- Big-endian 32-bit words of a byte list. -/
def bytesToWords (bs : List Nat) : List Nat := bytesToWordsGo bs.length bs

/-- Extend the 16-word block to the 64-word message schedule. -/
def scheduleGo : Nat → List Nat → List Nat
  | 0, ws => ws
  | n + 1, ws =>
      let i := ws.length
      let w := (ssig1 (nth ws (i - 2)) + nth ws (i - 7) +
                ssig0 (nth ws (i - 15)) + nth ws (i - 16)) % m32
      scheduleGo n (ws ++ [w])

/-- One SHA-256 round on the 8-word working state. -/
def roundStep (st : List Nat) (kw : Nat × Nat) : List Nat :=
  match st with
  | [a, b, c, d, e, f, g, h] =>
      let t1 := (h + bsig1 e + chFn e f g + kw.1 + kw.2) % m32
      let t2 := (bsig0 a + majFn a b c) % m32
      [(t1 + t2) % m32, a, b, c, (d + t1) % m32, e, f, g]
  | other => other

/-- Compress one 64-byte block into the hash state. -/
def sha256Compress (h : List Nat) (block : List Nat) : List Nat :=
  let ws := scheduleGo 48 (bytesToWords block)
  let st := (K256.zip ws).foldl roundStep h
  (h.zip st).map (fun p => (p.1 + p.2) % m32)

/-- Split the padded message into 64-byte blocks. -/
def chunks64Go : Nat → List Nat → List (List Nat)
  | 0, _ => []
  | _ + 1, [] => []
  | n + 1, xs => xs.take 64 :: chunks64Go n (xs.drop 64)

/-- 64-byte blocks of a list. -/
def chunks64 (xs : List Nat) : List (List Nat) :=
  chunks64Go (xs.length / 64 + 1) xs

/-- SHA-256 digest (8 words) of a byte list. -/
def sha256Words (msg : List Nat) : List Nat :=
  (chunks64 (sha256Pad msg)).foldl sha256Compress H256

/-- Eight lower-case hex digits of one 32-bit word. -/
def word32Hex (w : Nat) : String :=
  String.mk ((List.range 8).map (fun i => hexChar ((w >>> ((7 - i) * 4)) % 16)))

/-- `hashlib.sha256(s.encode()).hexdigest()`. -/
def sha256Hex (s : String) : String :=
  String.join ((sha256Words (utf8Bytes s)).map word32Hex)

/-! ## Result cache (`src/utils/cache_helper.py`, `src/core/nodes/execution_nodes.py`)

The on-disk layout `.prisma/cache/<tool_name>/<sig_hash>.txt` is modelled as a
map from the pair (tool name, hash file stem) to the file's text. An argument
signature is a Python dict, i.e. a key-value list. -/

/-- Argument signature: the `args` / `input_signature` dict. -/
abbrev Sig := List (String × PyJson)

/-- The cache directory contents: tool name and hash stem to cached text. -/
abbrev CacheStore := String → String → Option String

/-- The empty cache directory. -/
def emptyStore : CacheStore := fun _ _ => none

/-- Python `input_signature or {}` on an optional dict: `None` and the empty
dict are falsy and give `{}`; any other dict is returned unchanged. -/
def pyOrEmpty : Option Sig → Sig
  | none => []
  | some [] => []
  | some kvs => kvs

/-- `_signature_hash` from `cache_helper.py`:
`sha256(json.dumps(input_signature or {}, sort_keys=True).encode()).hexdigest()[:16]`. -/
def signatureHash (input_signature : Sig) : String :=
  pyTake (sha256Hex (pyDumpsSorted (PyJson.jObj (pyOrEmpty (some input_signature))))) 16

/-- The hash computed by `ExecutionNodes._cache_result`:
`sha256(json.dumps(args, sort_keys=True).encode()).hexdigest()[:16]`. -/
def cacheWriteHash (args : Sig) : String :=
  pyTake (sha256Hex (pyDumpsSorted (PyJson.jObj args))) 16

/-- The cache-miss sentinel returned by `get_cached_output`. -/
def cacheMissMsg : String :=
  "[CacheMiss] No cached output for this tool/arguments combination."

/-- `get_cached_output` from `cache_helper.py`: empty tool name is rejected,
the file stem is `_signature_hash(input_signature or {})`, a missing file
yields the cache-miss sentinel, otherwise the file text is returned. -/
def get_cached_output (store : CacheStore) (tool_name : String)
    (input_signature : Option Sig) : String :=
  if tool_name = "" then "[Error] tool_name is required"
  else
    let sigHash := signatureHash (pyOrEmpty input_signature)
    match store tool_name sigHash with
    | none => cacheMissMsg
    | some text => text

/-- `ExecutionNodes._cache_result`: write `result` under
`.prisma/cache/<tool_name>/<hash>.txt`. -/
def cacheResult (store : CacheStore) (tool_name : String) (args : Sig)
    (result : String) : CacheStore :=
  fun t h =>
    if t = tool_name ∧ h = cacheWriteHash args then some result else store t h

/-! ## Capability resolver (`src/utils/capability_resolver.py`)

`query_mcp_registry` is a language-model judgment (external); its returned
match list is a parameter. The cache lookup reuses `get_cached_output`. -/

/-- Tool record metadata as kept in the MCP registry. -/
structure ToolMeta where
  name : String := ""
  description : String := ""
  packages : List String := []

/-- The resolver's returned action/data pair. -/
structure Resolution where
  action : String
  dataText : Option String := none
  dataTool : Option ToolMeta := none

/-- The naive capability-to-tool-name mapping used for the cache lookup:
`capability_query.replace(" ", "_").lower()[:40]`. -/
def normalizeCapability (q : String) : String :=
  pyTake (pyLower (pyReplace q " " "_")) 40

/-- `resolve_capability`: (1) cache lookup keyed by the normalized query and
the argument signature; a non-miss, non-error text short-circuits to
`use_cache`; (2) a nonempty registry match list gives `use_mcp` with the
first tool; (3) otherwise the action is `create_new_tool` with no payload.
`registryMatches` is the list returned by the LLM-driven
`query_mcp_registry` call. -/
def resolve_capability (store : CacheStore) (capability_query : String)
    (tool_args : Sig) (registryMatches : List ToolMeta) : Resolution :=
  let cacheStr := get_cached_output store (normalizeCapability capability_query)
      (some tool_args)
  if !pyStartsWith cacheStr "[CacheMiss]" && !pyStartsWith cacheStr "[Error]" then
    { action := "use_cache", dataText := some cacheStr }
  else
    match registryMatches with
    | t :: _ => { action := "use_mcp", dataTool := some t }
    | [] => { action := "create_new_tool" }

/-! ## Workflow state and decision engine (`src/core/graph/decision_engine.py`)

`AgentState` carries the fields the embedded nodes and routing decisions
read. Absent keys of the Python state dict are represented by the falsy
defaults the code supplies through `state.get`. -/

/-- A planned subtask dict. `capability_query` is optional to model a
malformed LLM plan missing that key. -/
structure PlanSubtask where
  id : Int := 1
  description : String := ""
  capability_query : Option String := none
  depends_on : List Int := []
  status : Option String := none
  result : Option String := none

/-- The workflow state fields used by the embedded nodes and decisions. -/
structure AgentState where
  original_query : String := ""
  subtasks : List PlanSubtask := []
  current_subtask_idx : Nat := 0
  active_query : String := ""
  subtask_results : List String := []
  has_more_subtasks : Bool := false
  current_subtask_failure_count : Nat := 0
  validation_passed : Bool := false
  validation_error : Option String := none
  generation_retry_count : Nat := 0
  need_more_research : Bool := false
  review_passed : Bool := false
  review_retry_count : Nat := 0
  resolve_action : Option String := none
  messages : List String := []
  generated_code : String := ""
  tool_name : String := ""
  tool_description : String := ""
  required_packages : List String := []

/-- Python truthiness of an optional string state entry: absent (`None`) and
the empty string are falsy. -/
def pyTruthyStr : Option String → Bool
  | none => false
  | some s => s != ""

/-- `DecisionEngine.MAX_RETRIES`. -/
def MAX_RETRIES : Nat := 3

/-- `DecisionEngine.decide_resolution`: map the resolver action to a route,
defaulting to `create` for anything unrecognized. -/
def decide_resolution (st : AgentState) : String :=
  let action := st.resolve_action.getD "create"
  if action = "use_cache" then "cache"
  else if action = "use_mcp" then "existing"
  else "create"

/-- `DecisionEngine.decide_validation`: success registers; otherwise retry
while the generation-retry counter is below `MAX_RETRIES`, else fail. -/
def decide_validation (st : AgentState) : String :=
  if st.validation_passed then "register"
  else if st.generation_retry_count < MAX_RETRIES then "retry"
  else "fail"

/-- `DecisionEngine.decide_finish`. -/
def decide_finish (st : AgentState) : String :=
  if st.current_subtask_failure_count ≥ 3 then "end"
  else if st.has_more_subtasks then "next"
  else "review"

/-- `DecisionEngine.decide_review`: pass ends; at 3 failed reviews fail;
otherwise loop back to plan. -/
def decide_review (st : AgentState) : String :=
  if st.review_passed then "end"
  else if st.review_retry_count ≥ 3 then "fail"
  else "plan"

/-- `DecisionEngine.decide_failure`. -/
def decide_failure (st : AgentState) : String :=
  if st.current_subtask_failure_count ≥ 3 then "end"
  else "retry"

/-! ## Planning (`src/core/nodes/planning_nodes.py`, `plan_node`)

The language-model call `llm_json_task` is external; its parsed result is
the parameter `llmResult`: `none` models a `None` or non-list result, and
Python treats an empty list as falsy too, so both fall back to the single
whole-query subtask. Reading `result[0]["capability_query"]` raises a
`KeyError` when the key is missing, which propagates out of the node; that
is the `Except.error` case. -/

/-- The update dict returned by `plan_node`. -/
structure PlanUpdates where
  subtasks : List PlanSubtask
  current_subtask_idx : Nat
  active_query : String
  subtask_results : List String

/-- The single-subtask fallback plan built from the whole query. -/
def planFallback (query : String) : List PlanSubtask :=
  [{ id := 1, description := query, capability_query := some query,
     depends_on := [], status := none, result := none }]

/-- The subtask list after the falsy/non-list fallback check. -/
def planResult (query : String) (llmResult : Option (List PlanSubtask)) :
    List PlanSubtask :=
  match llmResult with
  | none => planFallback query
  | some [] => planFallback query
  | some xs => xs

/-- `PlanningNodes.plan_node`. -/
def plan_node (query : String) (llmResult : Option (List PlanSubtask)) :
    Except String PlanUpdates :=
  match planResult query llmResult with
  | [] => Except.error "unreachable: result is never empty"
  | first :: rest =>
    match first.capability_query with
    | none => Except.error "KeyError: capability_query"
    | some q =>
      Except.ok { subtasks := first :: rest, current_subtask_idx := 0,
                  active_query := q, subtask_results := [] }

/-! ## Synthesis validation (`src/core/nodes/capability_nodes.py`)

`code_execute_local` always returns a string (see `code_runner.py`); that
string is the parameter `execResult`. -/

/-- The update dict returned by `validate_node`. -/
structure ValidateUpdates where
  validation_passed : Bool
  validation_error : Option String
  generation_retry_count : Nat

/-- `CapabilityNodes.validate_node`: success is the absence of the
`[Error]` prefix; the generation-retry counter is incremented
unconditionally. -/
def validate_node (st : AgentState) (execResult : String) : ValidateUpdates :=
  let success := !pyStartsWith execResult "[Error]"
  { validation_passed := success,
    validation_error := if success then none else some execResult,
    generation_retry_count := st.generation_retry_count + 1 }

/-- Merge a `validate_node` update into the state (what the graph runtime
does with the returned dict). -/
def applyValidate (st : AgentState) (u : ValidateUpdates) : AgentState :=
  { st with validation_passed := u.validation_passed,
            validation_error := u.validation_error,
            generation_retry_count := u.generation_retry_count }

/-- The `requirements` lines `generate_node` sends to `script_generate`;
a truthy `validation_error` appends the corrective-feedback line. -/
def generateRequirements (st : AgentState) : List String :=
  let base :=
    ["Function name: " ++ st.tool_name,
     "Description: " ++ st.tool_description,
     "Input schema", "Output schema", "Packages"]
  if pyTruthyStr st.validation_error then
    base ++ ["Fix this error: " ++ st.validation_error.getD ""]
  else base

/-- One failed generate-validate round: validation returns an error-prefixed
string, `validate_node` records it and increments the counter, and
`decide_validation` routes on the merged state. Returns the merged state
and the routing decision (`retry` loops back to `generate`). -/
def failedValidationRound (st : AgentState) (errText : String) :
    AgentState × String :=
  let st' := applyValidate st (validate_node st ("[Error] " ++ errText))
  (st', decide_validation st')

/-- Routing decisions of `n` consecutive failed validation attempts. -/
def allFailDecisions : Nat → AgentState → List String
  | 0, _ => []
  | n + 1, st =>
    let r := failedValidationRound st "boom"
    r.2 :: allFailDecisions n r.1

/-! ## Finish and review (`src/core/nodes/completion_nodes.py`) -/

/-- The update dict returned by `finish_node`. `current_subtask_idx` is
`none` when the node leaves the index key out of its update (last
subtask). -/
structure FinishUpdates where
  final_answer : String
  has_more_subtasks : Bool
  messages : List String
  current_subtask_failure_count : Nat
  current_subtask_idx : Option Nat

/-- `CompletionNodes.finish_node`: compute the final content, decide whether
more subtasks remain, reset the failure counter, and advance the index only
when more subtasks remain. -/
def finish_node (st : AgentState) : FinishUpdates :=
  let final_content :=
    match st.messages.getLast? with
    | some m => m
    | none =>
      match st.subtask_results.getLast? with
      | some r => r
      | none => "[No output]"
  let current_idx := st.current_subtask_idx
  let next_idx := current_idx + 1
  let has_more := next_idx < st.subtasks.length
  let answer :=
    if pyStartsWith final_content "[Error]" then "Error: " ++ final_content
    else if st.subtask_results.length > 1 then
      "Combined results:\n" ++ String.intercalate "\n---\n" st.subtask_results
    else final_content
  { final_answer := answer,
    has_more_subtasks := has_more,
    messages := ["Completed: " ++ answer],
    current_subtask_failure_count := 0,
    current_subtask_idx := if has_more then some next_idx else none }

/-- The subtask index after merging a `finish_node` update: unchanged when
the update leaves the key out. -/
def finishNewIdx (st : AgentState) (u : FinishUpdates) : Nat :=
  u.current_subtask_idx.getD st.current_subtask_idx

/-- The finish/reason verdict dict `detect_finish` promises to return
(`finish` is checked to be a bool before the dict is passed on). -/
structure DetectResult where
  finish : Bool
  reason : String

/-- The span matched by `re.search(r"\x7b.*\x7d", s, re.DOTALL)`: from the
first opening brace to the last closing brace, when that span is nonempty. -/
def braceSpan (s : String) : Option String :=
  let cs := s.toList
  match cs.findIdx? (fun c => c = Char.ofNat 123) with
  | none => none
  | some i =>
    match (cs.reverse.findIdx? (fun c => c = Char.ofNat 125)) with
    | none => none
    | some jr =>
      let j := cs.length - 1 - jr
      if i ≤ j then some (String.mk ((cs.drop i).take (j + 1 - i))) else none

/-- Look up a key in a parsed JSON object. -/
def objLookup (kvs : List (String × PyJson)) (k : String) : Option PyJson :=
  (kvs.find? (fun kv => kv.1 = k)).map (fun kv => kv.2)

/-- `detect_finish` from `src/core/tools.py`, after the language-model call:
the raw response is stripped, a brace-to-brace span is extracted (no span
means no valid JSON), `json.loads` (the external parser `jsonLoads`, which
yields an object's key-value list when it succeeds) is applied, and the
result must contain a boolean `finish` and a `reason`; every failure path
returns a verdict with `finish = False`. -/
def detect_finish (jsonLoads : String → Option (List (String × PyJson)))
    (responseContent : String) : DetectResult :=
  let rc := pyStrip responseContent
  match braceSpan rc with
  | none => { finish := false, reason := "LLM did not return valid JSON: " ++ rc }
  | some jsonString =>
    match jsonLoads jsonString with
    | none => { finish := false, reason := "LLM did not return valid JSON: " ++ rc }
    | some kvs =>
      match objLookup kvs "finish", objLookup kvs "reason" with
      | some (PyJson.jBool b), some _ => { finish := b, reason := "" }
      | _, _ => { finish := false, reason := "LLM returned malformed JSON: " ++ rc }

/-- The update dict returned by `review_node`. -/
structure ReviewUpdates where
  review_passed : Bool
  review_retry_count : Nat

/-- `CompletionNodes.review_node`: the verdict of the `detect_finish` call
decides `passed`; an exception escaping the call (the `Except.error` case)
defaults to accepting the answer. A failed review increments the
review-retry counter, a passed one resets it. -/
def review_node (st : AgentState) (callResult : Except Unit DetectResult) :
    ReviewUpdates :=
  let passed :=
    match callResult with
    | Except.error _ => true
    | Except.ok d => d.finish
  let retry_count := if passed then 0 else st.review_retry_count + 1
  { review_passed := passed, review_retry_count := retry_count }

/-! ## Hybrid package installation (`src/utils/env_manager.py`, `install_packages`)

The subprocess backends (conda create/install, pip list/install) are
external; one `AttemptEnv` records their observable behavior during one
pass of the two-pass loop. `condaStderr = some s` models a nonzero conda
exit status with stderr `s` (Python then truth-tests the stderr string when
assembling the combined error); `pipStderr = some s` models a nonzero pip
exit status. The installed-package sets are those reported by the
`pip list` refreshes before and after the conda step. -/

/-- Observable backend behavior during one attempt of `install_packages`. -/
structure AttemptEnv where
  ensureOk : Bool := true
  installedAtStart : List String := []
  condaMetaExists : Bool := true
  condaStderr : Option String := none
  installedAfterConda : List String := []
  pipStderr : Option String := none

/-- Outcome of the body of one `for attempt in range(2)` pass. -/
inductive AttemptOutcome where
  | allOk : AttemptOutcome
  | ensureFailed : AttemptOutcome
  | pipFailed : String → AttemptOutcome

/-- The packages still needed given an installed set:
`[p for p in pkgs if p.lower() not in installed]`. -/
def neededAgainst (installed : List String) (pkgs : List String) : List String :=
  pkgs.filter (fun p => !installed.contains (pyLower p))

/-- One pass of the `install_packages` loop body, up to its control-flow
outcome (early success return, ensure failure, or pip failure with the
combined error text). -/
def installAttempt (env : AttemptEnv) (packages system_packages : List String) :
    AttemptOutcome :=
  if !env.ensureOk then .ensureFailed
  else
    let all_packages := packages ++ system_packages
    if all_packages.isEmpty then .allOk
    else
      let needed_packages := neededAgainst env.installedAtStart all_packages
      if needed_packages.isEmpty then .allOk
      else
        let conda_error : Option String :=
          if env.condaMetaExists then env.condaStderr else none
        let pip_packages := neededAgainst env.installedAfterConda needed_packages
        if pip_packages.isEmpty then .allOk
        else
          match env.pipStderr with
          | none => .allOk
          | some perr =>
            let pip_error := "Pip installation failed:\n" ++ perr
            let full_error :=
              match conda_error with
              | some ce =>
                if ce != "" then
                  "Conda Error:\n" ++ ce ++ "\n\nPip Error:\n" ++ pip_error
                else pip_error
              | none => pip_error
            .pipFailed full_error

/-- Result of an `install_packages` call, with the number of
`_wipe_environment` calls made during it. -/
structure InstallResult where
  success : Bool
  error : Option String
  wipes : Nat

/-- `install_packages`: two passes; a failure of the first pass (ensure or
pip) wipes the environment exactly once and retries; a failure of the
second pass is terminal and, for a pip failure, reports the combined
conda-plus-pip error behind the retry-exhausted message. -/
def install_packages (env : Fin 2 → AttemptEnv)
    (packages system_packages : List String) : InstallResult :=
  match installAttempt (env 0) packages system_packages with
  | .allOk => { success := true, error := none, wipes := 0 }
  | .ensureFailed =>
    (match installAttempt (env 1) packages system_packages with
     | .allOk => { success := true, error := none, wipes := 1 }
     | .ensureFailed =>
       { success := false, error := some "Failed to ensure environment is ready.",
         wipes := 1 }
     | .pipFailed fe =>
       { success := false,
         error := some ("Package installation failed after retry. Cannot proceed.\n" ++ fe),
         wipes := 1 })
  | .pipFailed _ =>
    (match installAttempt (env 1) packages system_packages with
     | .allOk => { success := true, error := none, wipes := 1 }
     | .ensureFailed =>
       { success := false, error := some "Failed to ensure environment is ready.",
         wipes := 1 }
     | .pipFailed fe =>
       { success := false,
         error := some ("Package installation failed after retry. Cannot proceed.\n" ++ fe),
         wipes := 1 })

/-! ## Unified correction loop (`execute_code`, lines 301-501)

Per attempt the loop installs the current package lists, checks the code's
parse validity, and on failure tracks per-package failure counts, discards
packages that reached 2 failures, and asks the correction model for new
code and package lists. The three external effects are oracle parameters:
`install` is the `install_packages` outcome (`some err` is a failure),
`parseCheck` is `compile(code, ...)` (`some msg` is a `SyntaxError`), and
`correct` is the combined `basic_llm.invoke` response passed through
`_extract_code_from_llm_output` (`none` when no code could be extracted —
the "could not extract corrections" path — and `some (code, pkgs, sysPkgs)`
when extraction produced truthy code; the JSON branch of the extractor
returns the `packages` / `system_packages` lists verbatim from the model's
JSON, so the returned lists are arbitrary, while the code-only fallback
keeps the current lists). -/

/-- The oracles feeding one `execute_code` correction loop. Each receives
the attempt index and the current package lists (the data that reaches the
corresponding Python call). -/
structure CorrectionOracles where
  install : Nat → List String → List String → Option String
  parseCheck : String → Option String
  correct : Nat → List String → List String → Option (String × List String × List String)

/-- The loop's mutable variables. -/
structure LoopVars where
  code : String
  cur : List String
  curSys : List String
  counts : List (String × Nat)
  discarded : List String
  discardedSys : List String
  faultLog : List String

/-- `package_failure_counts.get(pkg, 0)`. -/
def getCount (counts : List (String × Nat)) (p : String) : Nat :=
  ((counts.find? (fun kv => kv.1 = p)).map (fun kv => kv.2)).getD 0

/-- `package_failure_counts[pkg] = n` (dict assignment). -/
def setCount : List (String × Nat) → String → Nat → List (String × Nat)
  | [], p, n => [(p, n)]
  | (q, m) :: rest, p, n =>
    if q = p then (p, n) :: rest else (q, m) :: setCount rest p n

/-- Increment the failure count of every package in the list, one per
occurrence (`for pkg in all_current_packages: counts[pkg] = get+1`). -/
def bumpCounts (counts : List (String × Nat)) : List String → List (String × Nat)
  | [] => counts
  | p :: rest => bumpCounts (setCount counts p (getCount counts p + 1)) rest

/-- `for pkg in toRemove: if pkg in xs: xs.remove(pkg); discarded.append(pkg)`
(`list.remove` drops the first occurrence). Returns the shrunk list and the
appended discard record. -/
def removeDiscards (xs : List String) (toRemove : List String) :
    List String × List String :=
  toRemove.foldl
    (fun acc pkg =>
      if acc.1.contains pkg then (acc.1.erase pkg, acc.2 ++ [pkg]) else acc)
    (xs, [])

/-- The install-failure bookkeeping of one attempt: bump every current
package's failure count, log the failure, then discard from both lists
every package whose count reached `max_package_failures = 2`. -/
def installFailureBookkeeping (attempt : Nat) (perr : String) (v : LoopVars) :
    LoopVars :=
  let counts' := bumpCounts v.counts (v.cur ++ v.curSys)
  let log1 := v.faultLog ++
    ["[Attempt " ++ toString (attempt + 1) ++ "] Package installation failed. Error: " ++ perr]
  let packages_to_discard := v.cur.filter (fun p => getCount counts' p ≥ 2)
  let system_to_discard := v.curSys.filter (fun p => getCount counts' p ≥ 2)
  let r1 := removeDiscards v.cur packages_to_discard
  let r2 := removeDiscards v.curSys system_to_discard
  let log2 :=
    if packages_to_discard.isEmpty ∧ system_to_discard.isEmpty then log1
    else log1 ++ ["[Attempt " ++ toString (attempt + 1) ++ "] Discarded persistently failing packages"]
  { v with counts := counts', cur := r1.1, curSys := r2.1,
           discarded := v.discarded ++ r1.2, discardedSys := v.discardedSys ++ r2.2,
           faultLog := log2 }

/-- The parse-failure logging of one attempt (`syntax_error` recorded in
the fault log; nothing else changes). -/
def parseLogStep (parseErr : Option String) (attempt : Nat) (v1 : LoopVars) :
    LoopVars :=
  match parseErr with
  | none => v1
  | some serr =>
    { v1 with faultLog := v1.faultLog ++
        ["[Attempt " ++ toString (attempt + 1) ++ "] Invalid code: " ++ serr] }

/-- The correction call of one attempt: the model response passed through
`_extract_code_from_llm_output` either yields code plus package lists
(which replace the current ones) or nothing usable (logged only). -/
def applyCorrection (orc : CorrectionOracles) (attempt : Nat) (v2 : LoopVars) :
    LoopVars :=
  match orc.correct attempt v2.cur v2.curSys with
  | some r =>
    { v2 with code := r.1, cur := r.2.1, curSys := r.2.2,
              faultLog := v2.faultLog ++
                ["[Attempt " ++ toString (attempt + 1) ++ "] Applied LLM correction"] }
  | none =>
    { v2 with faultLog := v2.faultLog ++
        ["[Attempt " ++ toString (attempt + 1) ++ "] LLM correction failed"] }

/-- Outcome of the correction loop: the terminal error message after the
last attempt, or the loop variables at the `break` that proceeds to
execution. `installCalls` records the package lists passed to each
`install_packages` call and `finalVars` the loop variables at exit (both
are observability instrumentation; the transitions themselves mirror the
source). -/
structure LoopOut where
  installCalls : List (List String × List String)
  result : Except String LoopVars
  finalVars : LoopVars

/-- The correction loop (`for attempt in range(max_retries)` with
`max_retries = 5`), structured on the remaining attempt count; `remaining`
starts at 5 with `attempt` 0 and `remaining = 5 - attempt` throughout.
Records the package lists passed to each `install_packages` call. -/
def correctionLoopGo (orc : CorrectionOracles) :
    Nat → Nat → LoopVars → LoopOut
  | 0, _, v =>
    { installCalls := [], result := Except.error "unreachable: range exhausted",
      finalVars := v }
  | remaining + 1, attempt, v =>
    let callEntry := (v.cur, v.curSys)
    let installErr := orc.install attempt v.cur v.curSys
    let parseErr := orc.parseCheck v.code
    let v1 :=
      match installErr with
      | none => v
      | some perr => installFailureBookkeeping attempt perr v
    let v2 := parseLogStep parseErr attempt v1
    if installErr.isNone ∧ parseErr.isNone then
      { installCalls := [callEntry], result := Except.ok v2, finalVars := v2 }
    else if remaining = 0 then
      let parts :=
        (match installErr with
         | some perr => ["package installation failed: " ++ perr]
         | none => []) ++
        (match parseErr with
         | some serr => ["invalid code: " ++ serr]
         | none => [])
      { installCalls := [callEntry],
        result := Except.error
          ("Failed to prepare code after 5 attempts: " ++ String.intercalate ", " parts ++
           "\n\nFull error history:\n" ++ String.intercalate "\n" v2.faultLog),
        finalVars := v2 }
    else
      let v3 := applyCorrection orc attempt v2
      let rest := correctionLoopGo orc remaining (attempt + 1) v3
      { installCalls := callEntry :: rest.installCalls, result := rest.result,
        finalVars := rest.finalVars }

/-- Fresh loop variables for an `execute_code` call (counts, discards and
fault log all start empty). -/
def freshLoopVars (code : String) (packages system_packages : List String) :
    LoopVars :=
  { code := code, cur := packages, curSys := system_packages,
    counts := [], discarded := [], discardedSys := [], faultLog := [] }

/-- The whole correction loop of one `execute_code` call
(`max_retries = MAX_RETRIES = 5` in `env_manager.py`). -/
def correctionLoop (orc : CorrectionOracles) (code : String)
    (packages system_packages : List String) : LoopOut :=
  correctionLoopGo orc 5 0 (freshLoopVars code packages system_packages)

/-! ## Runtime missing-dependency recovery (`execute_code`, lines 503-563)

After a nonzero-exit execution, missing module names are parsed from stderr
with `re.findall(r"No module named [quote]([A-Za-z0-9_.]+)[quote]")`; if any
are found and the runtime budget (`MAX_RUNTIME_RETRIES = 2`) is not
exhausted, the code calls `install_packages` — whose result is the tuple
`(success, error)` — and branches on `if install_success:`. A Python tuple
is truthy exactly when it is nonempty, so this 2-tuple is always truthy. -/

/-- Characters matched by the `[A-Za-z0-9_.]` class. -/
def isModChar (c : Char) : Bool :=
  (Char.ofNat 65 ≤ c ∧ c ≤ Char.ofNat 90) ∨
  (Char.ofNat 97 ≤ c ∧ c ≤ Char.ofNat 122) ∨
  (Char.ofNat 48 ≤ c ∧ c ≤ Char.ofNat 57) ∨
  c = Char.ofNat 95 ∨ c = Char.ofNat 46

/-- Single or double quote. -/
def isQuoteChar (c : Char) : Bool :=
  c = Char.ofNat 39 ∨ c = Char.ofNat 34

/-- The literal part of the missing-module pattern. -/
def noModuleLit : List Char := "No module named ".toList

/-- Try to match the full pattern at the head of the character list;
returns the captured module name and the remainder after the match. -/
def tryMatchMissing (cs : List Char) : Option (String × List Char) :=
  if noModuleLit.isPrefixOf cs then
    match cs.drop noModuleLit.length with
    | [] => none
    | q1 :: rest =>
      if isQuoteChar q1 then
        let run := rest.takeWhile isModChar
        if run.isEmpty then none
        else
          match rest.drop run.length with
          | [] => none
          | q2 :: rest2 =>
            if isQuoteChar q2 then some (String.mk run, rest2) else none
      else none
  else none

/-- Left-to-right non-overlapping scan (`re.findall` semantics for this
pattern: the character class is disjoint from the quotes, so the greedy
run never backtracks). -/
def findMissingGo : Nat → List Char → List String
  | 0, _ => []
  | _ + 1, [] => []
  | fuel + 1, c :: rest =>
    match tryMatchMissing (c :: rest) with
    | some r => r.1 :: findMissingGo fuel r.2
    | none => findMissingGo fuel rest

/-- All captured missing-module names in a stderr text. -/
def findMissingModules (stderrText : String) : List String :=
  findMissingGo stderrText.length stderrText.toList

/-- `m.split(".")[0]`: the top-level package of a dotted module path. -/
def firstDotComponent (s : String) : String :=
  String.mk (s.toList.takeWhile (fun c => c ≠ Char.ofNat 46))

/-- Python truthiness of a tuple: nonempty tuples are truthy. -/
def pyTupleTruthy (arity : Nat) : Bool := arity != 0

/-- Truthiness of the value `install_packages` returns at line 552: a
2-tuple `(success, error)`, truthy regardless of its contents. -/
def pyTruthyInstallResult (_ : Bool × Option String) : Bool := pyTupleTruthy 2

/-- The runtime loop's control decision after one execution attempt. -/
inductive RuntimeDecision where
  | breakDone : RuntimeDecision
  | retryAfterInstall : Nat → RuntimeDecision
  | abortInstallFailed : RuntimeDecision
  | breakNoRecovery : RuntimeDecision
deriving DecidableEq, Repr

/-- The decision logic of one pass of the runtime while-loop (lines
541-563): zero exit breaks out with the result; otherwise missing modules
are parsed from stderr; with missing modules and remaining budget the
install result decides retry versus abort; otherwise the loop breaks. -/
def runtimeStep (returncode : Int) (stderrText : String) (runtimeAttempt : Nat)
    (installRes : Bool × Option String) : RuntimeDecision :=
  if returncode = 0 then .breakDone
  else
    let missing_pkgs := (findMissingModules stderrText).map firstDotComponent
    if !missing_pkgs.isEmpty && decide (runtimeAttempt < 2) then
      if pyTruthyInstallResult installRes then .retryAfterInstall (runtimeAttempt + 1)
      else .abortInstallFailed
    else .breakNoRecovery

/-- One failed-install pass of the correction loop: the failure
bookkeeping, the parse-error logging, and the correction step, as applied
to the loop variables before the next attempt. -/
def failStepVars (orc : CorrectionOracles) (attempt : Nat) (e : String)
    (v : LoopVars) : LoopVars :=
  applyCorrection orc attempt
    (parseLogStep (orc.parseCheck v.code) attempt (installFailureBookkeeping attempt e v))

/-- Correction-model oracle for the C4 counterexample: every install fails,
the code always parses, and each correction response's JSON block
re-specifies `badpkg` in its `packages` list (the extractor returns that
list verbatim). -/
def readdOracles : CorrectionOracles :=
  { install := fun _ _ _ => some "install boom",
    parseCheck := fun _ => none,
    correct := fun _ _ _ => some ("x = 1", ["badpkg"], []) }

/-- The update `plan_node` computes for the query of end-to-end scenario A
with a malformed model response (the fallback plan). -/
def planFallbackUpdate : PlanUpdates :=
  { subtasks := [{ id := 1, description := "compute 17 * 4",
                   capability_query := some "compute 17 * 4",
                   depends_on := [], status := none, result := none }],
    current_subtask_idx := 0, active_query := "compute 17 * 4",
    subtask_results := [] }

/-- The backend behavior for the C3 witness: both passes see a ready
environment, a failing conda install, and a failing pip install. -/
def c3Env : Fin 2 → AttemptEnv := fun _ =>
  { condaStderr := some "conda boom", pipStderr := some "pip boom" }

/-- The list-preserving correction oracle for the C4 witness: installs fail
on the first two attempts, the code parses, and corrections keep the
package lists unchanged. -/
def preserveOracles : CorrectionOracles :=
  { install := fun a _ _ => if a ≤ 1 then some "install boom" else none,
    parseCheck := fun _ => none,
    correct := fun _ ps sps => some ("y = 2", ps, sps) }

/-!
# Theorems

One theorem (plus witness or counterexample where required) per claim of
the specification audit, stated over the embedded definitions above.
-/

/-- FIPS 180-4 test vector anchoring the SHA-256 implementation the cache
keys are built on. -/
theorem sha256_abc_vector :
    sha256Hex "abc" =
      "ba7816bf8f01cfea414140de5dae2223b00361a396177a9cb410ff61f20015ad" := by
  decide

/-- Claim C10: for every cache store and tool name, a lookup with an absent
argument signature (`input_signature = None`) returns exactly the same
result as a lookup with the empty dict: both are canonicalized to the empty
dict before hashing, so the two are indistinguishable at the read
interface. -/
theorem C10_none_signature_eq_empty (store : CacheStore) (tool_name : String) :
    get_cached_output store tool_name none = get_cached_output store tool_name (some []) :=
  rfl

/-- Claim C5: across a `finish_node` transition, the subtask index
increases by exactly one when more subtasks remain and stays constant
otherwise, never exceeds the subtask count, and the per-subtask failure
counter of the returned update is reset to zero. -/
theorem C5_finish_index_invariant (st : AgentState)
    (h : st.current_subtask_idx ≤ st.subtasks.length) :
    ((finish_node st).has_more_subtasks = true →
      finishNewIdx st (finish_node st) = st.current_subtask_idx + 1) ∧
    ((finish_node st).has_more_subtasks = false →
      finishNewIdx st (finish_node st) = st.current_subtask_idx) ∧
    ((finish_node st).has_more_subtasks = true ↔
      st.current_subtask_idx + 1 < st.subtasks.length) ∧
    finishNewIdx st (finish_node st) ≤ st.subtasks.length ∧
    (finish_node st).current_subtask_failure_count = 0 := by
  have hfm : (finish_node st).has_more_subtasks =
      decide (st.current_subtask_idx + 1 < st.subtasks.length) := by
    simp [finish_node]
  have hidx : (finish_node st).current_subtask_idx =
      (if st.current_subtask_idx + 1 < st.subtasks.length then
        some (st.current_subtask_idx + 1) else none) := by
    simp [finish_node]
  have hfc : (finish_node st).current_subtask_failure_count = 0 := by
    simp [finish_node]
  by_cases hm : st.current_subtask_idx + 1 < st.subtasks.length
  · refine ⟨fun _ => ?_, fun hf => ?_, ?_, ?_, hfc⟩
    · simp [finishNewIdx, hidx, hm]
    · rw [hfm] at hf; simp [hm] at hf
    · simp [hfm, hm]
    · simp [finishNewIdx, hidx, hm]; omega
  · refine ⟨fun hf => ?_, fun _ => ?_, ?_, ?_, hfc⟩
    · rw [hfm] at hf; simp [hm] at hf
    · simp [finishNewIdx, hidx, hm]
    · simp [hfm, hm]
    · simp [finishNewIdx, hidx, hm]; omega

/-- Claim C5 witness: the finish theorem applied to a state with two
subtasks and active index zero. -/
theorem C5_witness :
    (0 : Nat) ≤ 2 ∧
    (finishNewIdx
        { subtasks := [{ description := "a" }, { description := "b" }],
          current_subtask_idx := 0 } (finish_node
        { subtasks := [{ description := "a" }, { description := "b" }],
          current_subtask_idx := 0 }) = 1 ∧
      (finish_node
        { subtasks := [{ description := "a" }, { description := "b" }],
          current_subtask_idx := 0 }).current_subtask_failure_count = 0) := by
  have h := C5_finish_index_invariant
    { subtasks := [{ description := "a" }, { description := "b" }],
      current_subtask_idx := 0 } (by decide)
  exact ⟨by decide, h.1 (by decide), h.2.2.2.2⟩

/-- Claim C9: every update `plan_node` returns sets the current subtask
index to 0 and the accumulated subtask-results list to empty, and a failed
review below the retry cap routes the workflow back to `plan`, so the
results accumulated so far are discarded and execution restarts at the
first subtask. -/
theorem C9_plan_resets_progress (query : String)
    (llmResult : Option (List PlanSubtask)) (u : PlanUpdates)
    (h : plan_node query llmResult = Except.ok u) :
    u.current_subtask_idx = 0 ∧ u.subtask_results = [] ∧
    (∀ st : AgentState, st.review_passed = false → st.review_retry_count < 3 →
      decide_review st = "plan") := by
  have hu : u.current_subtask_idx = 0 ∧ u.subtask_results = [] := by
    unfold plan_node at h
    cases hres : planResult query llmResult with
    | nil => rw [hres] at h; cases h
    | cons first rest =>
      rw [hres] at h
      simp only [] at h
      cases hq : first.capability_query with
      | none => rw [hq] at h; cases h
      | some q =>
        rw [hq, Except.ok.injEq] at h
        subst h
        exact ⟨rfl, rfl⟩
  refine ⟨hu.1, hu.2, fun st hp hr => ?_⟩
  simp only [decide_review, hp, Bool.false_eq_true, if_false]
  rw [if_neg]
  omega

/-- Claim C9 witness: the plan theorem applied to the fallback plan of a
concrete query. -/
theorem C9_witness :
    planFallbackUpdate.current_subtask_idx = 0 ∧
    planFallbackUpdate.subtask_results = [] :=
  ⟨(C9_plan_resets_progress "compute 17 * 4" none planFallbackUpdate rfl).1,
   (C9_plan_resets_progress "compute 17 * 4" none planFallbackUpdate rfl).2.1⟩

/-- Claim C8: in the runtime missing-dependency recovery, whenever missing
module names are detected in the error stream and the runtime retry budget
(2) is not exhausted, execution is retried regardless of the
`install_packages` outcome, because that outcome is a 2-tuple and Python
tuples are truthy exactly when nonempty; the abort branch for a failed
reinstallation is unreachable for every input. -/
theorem C8_abort_branch_unreachable (rc : Int) (stderrText : String)
    (attempt : Nat) (installRes : Bool × Option String)
    (hrc : rc ≠ 0)
    (hmiss : findMissingModules stderrText ≠ [])
    (hbudget : attempt < 2) :
    runtimeStep rc stderrText attempt installRes =
      RuntimeDecision.retryAfterInstall (attempt + 1) ∧
    (∀ r : Bool × Option String, pyTruthyInstallResult r = true) ∧
    (∀ (rc2 : Int) (s2 : String) (a2 : Nat) (r2 : Bool × Option String),
      runtimeStep rc2 s2 a2 r2 ≠ RuntimeDecision.abortInstallFailed) := by
  refine ⟨?_, fun r => rfl, fun rc2 s2 a2 r2 => ?_⟩
  · have hne : ((findMissingModules stderrText).map firstDotComponent).isEmpty = false := by
      cases hfm : findMissingModules stderrText with
      | nil => exact absurd hfm hmiss
      | cons a l => simp
    simp [runtimeStep, hrc, hne, hbudget, pyTruthyInstallResult, pyTupleTruthy]
  · unfold runtimeStep
    by_cases h0 : rc2 = 0
    · simp [h0]
    · by_cases hc : (!((findMissingModules s2).map firstDotComponent).isEmpty &&
          decide (a2 < 2)) = true
      · simp [h0, hc, pyTruthyInstallResult, pyTupleTruthy]
      · simp [h0, hc]

/-- Claim C8 witness: the runtime-retry theorem applied to a concrete
missing-numpy stderr, attempt 0, and a failed installation result. -/
theorem C8_witness :
    (1 : Int) ≠ 0 ∧
    findMissingModules "ModuleNotFoundError: No module named \x27numpy\x27" ≠ [] ∧
    runtimeStep 1 "ModuleNotFoundError: No module named \x27numpy\x27" 0
      (false, some "pip failed") = RuntimeDecision.retryAfterInstall 1 :=
  ⟨by decide, by decide,
   (C8_abort_branch_unreachable 1 "ModuleNotFoundError: No module named \x27numpy\x27"
      0 (false, some "pip failed") (by decide) (by decide) (by decide)).1⟩

/-- Claim C7 counterexample: with a missing cache entry and no registry
match, the resolver's action value is the string `create_new_tool`, not
`create` as the claim states (the `create` value exists only as the routing
label the decision engine maps unrecognized actions to). -/
theorem C7_counterexample :
    (resolve_capability emptyStore "compute something new" [] []).action =
      "create_new_tool" ∧
    (resolve_capability emptyStore "compute something new" [] []).action ≠
      "create" := by
  constructor
  · rfl
  · decide

/-- Claim C7 (amended): on a cache miss with no registry match the resolver
returns action `create_new_tool` with no payload; the resolver's action is
always one of `use_cache`, `use_mcp`, `create_new_tool`; and the decision
engine routes `create_new_tool` (like every unrecognized action) to the
`create` branch. -/
theorem C7_amended (store : CacheStore) (q : String) (args : Sig)
    (registryMatches : List ToolMeta)
    (hmiss : pyStartsWith (get_cached_output store (normalizeCapability q) (some args))
        "[CacheMiss]" = true ∨
      pyStartsWith (get_cached_output store (normalizeCapability q) (some args))
        "[Error]" = true)
    (hnone : registryMatches = []) :
    (resolve_capability store q args registryMatches).action = "create_new_tool" ∧
    (resolve_capability store q args registryMatches).dataText = none ∧
    (resolve_capability store q args registryMatches).dataTool = none ∧
    (∀ st : AgentState, st.resolve_action = some "create_new_tool" →
      decide_resolution st = "create") ∧
    (∀ ms : List ToolMeta,
      (resolve_capability store q args ms).action = "use_cache" ∨
      (resolve_capability store q args ms).action = "use_mcp" ∨
      (resolve_capability store q args ms).action = "create_new_tool") := by
  subst hnone
  have hcond : (!pyStartsWith (get_cached_output store (normalizeCapability q) (some args))
      "[CacheMiss]" &&
      !pyStartsWith (get_cached_output store (normalizeCapability q) (some args))
      "[Error]") = false := by
    rcases hmiss with hm | hm <;> simp [hm]
  refine ⟨?_, ?_, ?_, ?_, ?_⟩
  · simp [resolve_capability, hcond]
  · simp [resolve_capability, hcond]
  · simp [resolve_capability, hcond]
  · intro st hra
    simp [decide_resolution, hra]
  · intro ms
    simp only [resolve_capability, hcond, Bool.false_eq_true, if_false]
    cases ms with
    | nil => right; right; rfl
    | cons t rest => right; left; rfl

/-- Claim C7 witness: the amended resolver theorem applied on the empty
cache and an empty registry-match list. -/
theorem C7_witness :
    pyStartsWith (get_cached_output emptyStore (normalizeCapability "list the files") (some []))
      "[CacheMiss]" = true ∧
    (resolve_capability emptyStore "list the files" [] []).action = "create_new_tool" :=
  ⟨by decide,
   (C7_amended emptyStore "list the files" [] [] (Or.inl (by decide)) rfl).1⟩

/-- Claim C2 counterexample: a reviewing-model output with no JSON object
in it cannot be parsed into the finish/reason verdict, yet the review is
not treated as passed: `detect_finish` returns a `finish = False` verdict
and `review_node` marks the review failed, refuting the claimed fail-open
behavior for this input. -/
theorem C2_counterexample :
    (review_node {} (Except.ok
      (detect_finish (fun _ => none) "The answer looks complete to me."))).review_passed
      = false := by
  decide

/-- Claim C2 (amended): whenever the reviewing model's output cannot be
parsed into the expected finish/reason verdict — no brace-to-brace span,
`json.loads` failure, or a malformed object without a boolean `finish` and
a `reason` — `detect_finish` returns `finish = False`, so the review is
treated as failed (fail-closed) and the review-retry counter is
incremented; the fail-open default to passed applies only when the review
call raises an exception. -/
theorem C2_amended (jl : String → Option (List (String × PyJson)))
    (resp : String) (st : AgentState)
    (hparse : braceSpan (pyStrip resp) = none ∨
      (∃ s, braceSpan (pyStrip resp) = some s ∧ jl s = none) ∨
      (∃ s kvs, braceSpan (pyStrip resp) = some s ∧ jl s = some kvs ∧
        ((∀ b, objLookup kvs "finish" ≠ some (PyJson.jBool b)) ∨
          objLookup kvs "reason" = none))) :
    (detect_finish jl resp).finish = false ∧
    (review_node st (Except.ok (detect_finish jl resp))).review_passed = false ∧
    (review_node st (Except.ok (detect_finish jl resp))).review_retry_count =
      st.review_retry_count + 1 ∧
    (review_node st (Except.error ())).review_passed = true := by
  have hdf : (detect_finish jl resp).finish = false := by
    simp only [detect_finish]
    rcases hparse with hb | ⟨s, hb, hjl⟩ | ⟨s, kvs, hb, hjl, hbad⟩
    · rw [hb]
    · rw [hb]; simp only [hjl]
    · rw [hb]; simp only [hjl]
      rcases hbad with hfin | hreas
      · cases hf : objLookup kvs "finish" with
        | none => cases hr : objLookup kvs "reason" <;> rfl
        | some v =>
          cases v with
          | jBool b => exact absurd hf (hfin b)
          | jNull => cases hr : objLookup kvs "reason" <;> rfl
          | jInt n => cases hr : objLookup kvs "reason" <;> rfl
          | jStr s2 => cases hr : objLookup kvs "reason" <;> rfl
          | jArr xs => cases hr : objLookup kvs "reason" <;> rfl
          | jObj kvs2 => cases hr : objLookup kvs "reason" <;> rfl
      · rw [hreas]
        cases hf : objLookup kvs "finish" with
        | none => rfl
        | some v => cases v <;> rfl
  refine ⟨hdf, ?_, ?_, rfl⟩
  · simp [review_node, hdf]
  · simp [review_node, hdf]

/-- Claim C2 witness: the amended review theorem applied to a concrete
unparseable model output (no JSON object present). -/
theorem C2_witness :
    braceSpan (pyStrip "It satisfies the request.") = none ∧
    (detect_finish (fun _ => none) "It satisfies the request.").finish = false ∧
    (review_node {} (Except.ok
      (detect_finish (fun _ => none) "It satisfies the request."))).review_passed = false :=
  ⟨by decide,
   (C2_amended (fun _ => none) "It satisfies the request." {} (Or.inl (by decide))).1,
   (C2_amended (fun _ => none) "It satisfies the request." {} (Or.inl (by decide))).2.1⟩

/-- Claim C1 counterexample: starting a synthesis with the retry counter at
0 and every validation failing, the routing decisions of the first three
validation attempts are `retry`, `retry`, `fail`: because the counter is
incremented before the routing decision reads it, the loop-back edge from
validate to generate is taken exactly 2 times, not up to `MAX_RETRIES` (3)
times, and the `fail` route is taken at the limit (counter = 3), not beyond
it. -/
theorem C1_counterexample :
    allFailDecisions 3 {} = ["retry", "retry", "fail"] ∧
    (allFailDecisions 3 {}).count "retry" = 2 ∧
    decide_validation { validation_passed := false, generation_retry_count := 3 } =
      "fail" := by
  refine ⟨by decide, by decide, by decide⟩

/-- Claim C1 (amended): the validate stage increments the generation-retry
counter on every attempt (success and failure alike) before the routing
decision reads it; after a failed validation the router loops back to
generate exactly when the post-increment counter is below `MAX_RETRIES` (3)
and routes to fail at or beyond the limit, passing the recorded validation
error forward as generation feedback; hence a synthesis whose validations
all fail loops back at most `MAX_RETRIES` - 1 = 2 times across its
`MAX_RETRIES` total validation attempts. -/
theorem C1_amended (st : AgentState) (res : String) :
    (validate_node st res).generation_retry_count = st.generation_retry_count + 1 ∧
    (pyStartsWith res "[Error]" = true →
      (decide_validation (applyValidate st (validate_node st res)) =
        if st.generation_retry_count + 1 < MAX_RETRIES then "retry" else "fail") ∧
      ("Fix this error: " ++ res) ∈
        generateRequirements (applyValidate st (validate_node st res))) ∧
    (st.generation_retry_count = 0 →
      allFailDecisions 3 st = ["retry", "retry", "fail"]) := by
  refine ⟨rfl, fun h => ⟨?_, ?_⟩, fun hz => ?_⟩
  · simp [validate_node, applyValidate, decide_validation, h]
  · have hne : res ≠ "" := by
      intro he
      subst he
      exact absurd h (by decide)
    simp [validate_node, applyValidate, generateRequirements, pyTruthyStr, h, hne]
  · have hsw : pyStartsWith "[Error] boom" "[Error]" = true := by decide
    simp [allFailDecisions, failedValidationRound, applyValidate, validate_node,
      decide_validation, MAX_RETRIES, hz, hsw]

/-- Claim C1 witness: the amended validation-routing theorem applied to a
fresh state and a concrete failing validation result. -/
theorem C1_witness :
    pyStartsWith "[Error] validation blew up" "[Error]" = true ∧
    (validate_node {} "[Error] validation blew up").generation_retry_count = 1 ∧
    decide_validation
      (applyValidate {} (validate_node {} "[Error] validation blew up")) = "retry" := by
  have h := C1_amended {} "[Error] validation blew up"
  refine ⟨by decide, h.1, ?_⟩
  have h2 := (h.2.1 (by decide)).1
  simpa [MAX_RETRIES] using h2

/-- Claim C3: in every `install_packages` call in which, on both passes, the
environment check succeeds, packages remain uninstalled after the conda
attempt, the conda backend fails with (nonempty) stderr and the pip backend
fails, the manager wipes the environment exactly once — after the first
pass — retries the entire install sequence exactly once, and returns a
terminal failure whose error message contains both the conda backend's and
the pip backend's error text; no second wipe occurs within the call. -/
theorem C3_wipe_once_error_both (env : Fin 2 → AttemptEnv)
    (packages system_packages : List String) (condaErr pipErr : Fin 2 → String)
    (hens : ∀ i, (env i).ensureOk = true)
    (hmeta : ∀ i, (env i).condaMetaExists = true)
    (hconda : ∀ i, (env i).condaStderr = some (condaErr i))
    (hcne : ∀ i, condaErr i ≠ "")
    (hpip : ∀ i, (env i).pipStderr = some (pipErr i))
    (hneed : ∀ i, neededAgainst (env i).installedAfterConda
        (neededAgainst (env i).installedAtStart (packages ++ system_packages)) ≠ []) :
    install_packages env packages system_packages =
      { success := false,
        error := some ("Package installation failed after retry. Cannot proceed.\n" ++
          ("Conda Error:\n" ++ condaErr 1 ++ "\n\nPip Error:\n" ++
           ("Pip installation failed:\n" ++ pipErr 1))),
        wipes := 1 } := by
  have hatt : ∀ i, installAttempt (env i) packages system_packages =
      AttemptOutcome.pipFailed ("Conda Error:\n" ++ condaErr i ++ "\n\nPip Error:\n" ++
        ("Pip installation failed:\n" ++ pipErr i)) := by
    intro i
    have hne3 := hneed i
    have hne2 : neededAgainst (env i).installedAtStart (packages ++ system_packages) ≠ [] := by
      intro hcon
      exact hne3 (by rw [hcon]; rfl)
    have hne1 : (packages ++ system_packages) ≠ [] := by
      intro hcon
      exact hne2 (by rw [hcon]; rfl)
    have hbne : (condaErr i != "") = true := by
      simp [bne_iff_ne, hcne i]
    simp [installAttempt, hens i, hmeta i, hconda i, hpip i, hbne,
      List.isEmpty_iff, hne1, hne2, hne3]
  simp [install_packages, hatt 0, hatt 1]

/-- Claim C3 witness: the install theorem applied to a concrete package and
concrete backend failures. -/
theorem C3_witness :
    (install_packages c3Env ["somepkg"] []).wipes = 1 ∧
    (install_packages c3Env ["somepkg"] []).success = false ∧
    (install_packages c3Env ["somepkg"] []).error =
      some ("Package installation failed after retry. Cannot proceed.\n" ++
        ("Conda Error:\n" ++ "conda boom" ++ "\n\nPip Error:\n" ++
         ("Pip installation failed:\n" ++ "pip boom"))) := by
  have h := C3_wipe_once_error_both c3Env ["somepkg"] [] (fun _ => "conda boom")
    (fun _ => "pip boom") (fun _ => rfl) (fun _ => rfl) (fun _ => rfl)
    (fun _ => by show ("conda boom" : String) ≠ ""; decide) (fun _ => rfl)
    (fun _ => by
      show neededAgainst [] (neededAgainst [] (["somepkg"] ++ [])) ≠ []
      decide)
  rw [h]
  exact ⟨rfl, rfl, rfl⟩

/-- Claim C6: cache round-trip. Writing a result through the cache-write
path and reading with the identical (tool name, args) pair returns the same
text; after writing one entry, reading the same tool with args whose
16-hex-character key differs (as it does for every distinct pair of
argument dicts one can exhibit) returns the cache-miss sentinel; and both
sides key the entry by the sha256 of the canonical sorted-keys JSON of the
arguments, truncated to 16 hex characters, scoped under the tool name. -/
theorem C6_cache_roundtrip (store : CacheStore) (tool : String)
    (args args2 : Sig) (res : String)
    (htool : tool ≠ "")
    (hne : cacheWriteHash args2 ≠ cacheWriteHash args) :
    get_cached_output (cacheResult store tool args res) tool (some args) = res ∧
    get_cached_output (cacheResult emptyStore tool args res) tool (some args2) =
      cacheMissMsg ∧
    (∀ d : Sig, signatureHash d = cacheWriteHash d) ∧
    (∀ d : Sig, cacheWriteHash d =
      pyTake (sha256Hex (pyDumpsSorted (PyJson.jObj d))) 16) := by
  have hkey : ∀ d : Sig, signatureHash d = cacheWriteHash d := by
    intro d
    cases d with
    | nil => rfl
    | cons kv rest => rfl
  have hOr1 : pyOrEmpty (some args) = args := by cases args <;> rfl
  have hOr2 : pyOrEmpty (some args2) = args2 := by cases args2 <;> rfl
  refine ⟨?_, ?_, hkey, fun d => rfl⟩
  · simp [get_cached_output, cacheResult, htool, hOr1, hkey]
  · simp [get_cached_output, cacheResult, emptyStore, htool, hOr2, hkey, hne]

/-- Claim C6 witness: the round-trip theorem applied to a concrete tool,
the empty argument dict, and a distinct one-key argument dict whose
truncated sha256 keys are computed and compared by evaluation. -/
theorem C6_witness :
    ("mytool" : String) ≠ "" ∧
    cacheWriteHash [("a", PyJson.jStr "b")] ≠ cacheWriteHash [] ∧
    get_cached_output (cacheResult emptyStore "mytool" [] "the result") "mytool"
      (some []) = "the result" ∧
    get_cached_output (cacheResult emptyStore "mytool" [] "the result") "mytool"
      (some [("a", PyJson.jStr "b")]) = cacheMissMsg := by
  have h := C6_cache_roundtrip emptyStore "mytool" [] [("a", PyJson.jStr "b")]
    "the result" (by decide) (by decide)
  exact ⟨by decide, by decide, h.1, h.2.1⟩

/-! Helper lemmas about the correction loop's failure-count and discard
bookkeeping, shared by the C4 development. -/

theorem getCount_cons (k : String) (m : Nat) (l : List (String × Nat)) (q : String) :
    getCount ((k, m) :: l) q = if k = q then m else getCount l q := by
  by_cases h : k = q <;> simp [getCount, List.find?, h]

theorem getCount_setCount (c : List (String × Nat)) (p q : String) (n : Nat) :
    getCount (setCount c p n) q = if q = p then n else getCount c q := by
  induction c with
  | nil =>
    by_cases hqp : q = p
    · subst hqp; simp [setCount, getCount_cons]
    · have hpq : ¬ p = q := fun h => hqp h.symm
      simp [setCount, getCount_cons, hqp, hpq, getCount]
  | cons kv rest ih =>
    obtain ⟨k, m⟩ := kv
    by_cases hkp : k = p
    · by_cases hqp : q = p
      · simp [setCount, hkp, hqp, getCount_cons]
      · have hpq : ¬ p = q := fun h => hqp h.symm
        simp [setCount, hkp, hqp, hpq, getCount_cons]
    · by_cases hqp : q = p
      · have hkq : ¬ k = q := fun h => hkp (h.trans hqp)
        subst hqp
        simp [setCount, hkp, hkq, getCount_cons, ih]
      · simp [setCount, hkp, hqp, getCount_cons, ih]

theorem getCount_bumpCounts (l : List String) (c : List (String × Nat)) (q : String) :
    getCount (bumpCounts c l) q = getCount c q + l.count q := by
  induction l generalizing c with
  | nil => simp [bumpCounts]
  | cons a rest ih =>
    simp only [bumpCounts]
    rw [ih, getCount_setCount]
    by_cases hqa : q = a
    · subst hqa
      simp [List.count_cons]
      omega
    · have haq : ¬ a = q := fun h => hqa h.symm
      simp [hqa, haq, List.count_cons]

theorem removeDiscards_nil_right (xs : List String) :
    removeDiscards xs [] = (xs, []) := rfl

theorem removeDiscards_foldl_self (ys acc : List String) (h : ys.Nodup) :
    List.foldl
      (fun acc pkg =>
        if acc.1.contains pkg then (acc.1.erase pkg, acc.2 ++ [pkg]) else acc)
      (ys, acc) ys = ([], acc ++ ys) := by
  induction ys generalizing acc with
  | nil => simp
  | cons a rest ih =>
    have hnr : rest.Nodup := h.of_cons
    simp only [List.foldl_cons]
    rw [if_pos (by simp)]
    rw [List.erase_cons_head]
    rw [ih (acc ++ [a]) hnr]
    simp

theorem removeDiscards_self (xs : List String) (h : xs.Nodup) :
    removeDiscards xs xs = ([], xs) := by
  unfold removeDiscards
  rw [removeDiscards_foldl_self xs [] h]
  simp

theorem correctionLoopGo_fail_step (orc : CorrectionOracles) (rem att : Nat)
    (v : LoopVars) (e : String)
    (hinst : orc.install att v.cur v.curSys = some e) :
    correctionLoopGo orc (rem + 2) att v =
      { installCalls := (v.cur, v.curSys) ::
          (correctionLoopGo orc (rem + 1) (att + 1) (failStepVars orc att e v)).installCalls,
        result := (correctionLoopGo orc (rem + 1) (att + 1) (failStepVars orc att e v)).result,
        finalVars :=
          (correctionLoopGo orc (rem + 1) (att + 1) (failStepVars orc att e v)).finalVars } := by
  rw [show rem + 2 = (rem + 1) + 1 from rfl]
  simp only [correctionLoopGo, hinst, Option.isNone_some, Bool.false_eq_true, false_and,
    if_false, Nat.succ_ne_zero, failStepVars, Nat.add_eq_zero, and_false, one_ne_zero]

theorem parseLogStep_fields (pe : Option String) (att : Nat) (v1 : LoopVars) :
    (parseLogStep pe att v1).cur = v1.cur ∧
    (parseLogStep pe att v1).curSys = v1.curSys ∧
    (parseLogStep pe att v1).counts = v1.counts ∧
    (parseLogStep pe att v1).discarded = v1.discarded := by
  cases pe with
  | none => exact ⟨rfl, rfl, rfl, rfl⟩
  | some serr => exact ⟨rfl, rfl, rfl, rfl⟩

theorem applyCorrection_fields (orc : CorrectionOracles) (att : Nat) (v2 : LoopVars)
    (hpre : ∀ a ps sps r, orc.correct a ps sps = some r → r.2.1 = ps ∧ r.2.2 = sps) :
    (applyCorrection orc att v2).cur = v2.cur ∧
    (applyCorrection orc att v2).curSys = v2.curSys ∧
    (applyCorrection orc att v2).counts = v2.counts ∧
    (applyCorrection orc att v2).discarded = v2.discarded := by
  unfold applyCorrection
  cases hc : orc.correct att v2.cur v2.curSys with
  | none => exact ⟨rfl, rfl, rfl, rfl⟩
  | some r =>
    obtain ⟨h1, h2⟩ := hpre att v2.cur v2.curSys r hc
    simp [h1, h2]

theorem failStepVars_fields (orc : CorrectionOracles) (att : Nat) (e : String)
    (v : LoopVars)
    (hpre : ∀ a ps sps r, orc.correct a ps sps = some r → r.2.1 = ps ∧ r.2.2 = sps) :
    (failStepVars orc att e v).cur = (installFailureBookkeeping att e v).cur ∧
    (failStepVars orc att e v).curSys = (installFailureBookkeeping att e v).curSys ∧
    (failStepVars orc att e v).counts = (installFailureBookkeeping att e v).counts ∧
    (failStepVars orc att e v).discarded = (installFailureBookkeeping att e v).discarded := by
  unfold failStepVars
  obtain ⟨hp1, hp2, hp3, hp4⟩ :=
    parseLogStep_fields (orc.parseCheck v.code) att (installFailureBookkeeping att e v)
  obtain ⟨ha1, ha2, ha3, ha4⟩ := applyCorrection_fields orc att
    (parseLogStep (orc.parseCheck v.code) att (installFailureBookkeeping att e v)) hpre
  exact ⟨ha1.trans hp1, ha2.trans hp2, ha3.trans hp3, ha4.trans hp4⟩

theorem mem_discarded_ifb (att : Nat) (e : String) (v : LoopVars) (p : String)
    (hp : p ∈ v.discarded) : p ∈ (installFailureBookkeeping att e v).discarded := by
  simp only [installFailureBookkeeping]
  exact List.mem_append_left _ hp

theorem mem_discarded_parseLog (pe : Option String) (att : Nat) (v1 : LoopVars)
    (p : String) (hp : p ∈ v1.discarded) : p ∈ (parseLogStep pe att v1).discarded := by
  rw [(parseLogStep_fields pe att v1).2.2.2]
  exact hp

theorem mem_discarded_applyCorrection (orc : CorrectionOracles) (att : Nat)
    (v2 : LoopVars) (p : String) (hp : p ∈ v2.discarded) :
    p ∈ (applyCorrection orc att v2).discarded := by
  unfold applyCorrection
  cases hc : orc.correct att v2.cur v2.curSys with
  | none => exact hp
  | some r => exact hp

theorem correctionLoopGo_discarded_mono (orc : CorrectionOracles) (rem : Nat) :
    ∀ (att : Nat) (v : LoopVars) (p : String),
      p ∈ v.discarded → p ∈ (correctionLoopGo orc rem att v).finalVars.discarded := by
  induction rem with
  | zero => intro att v p hp; exact hp
  | succ n ih =>
    intro att v p hp
    simp only [correctionLoopGo]
    generalize orc.install att v.cur v.curSys = gi
    generalize orc.parseCheck v.code = gp
    cases gi with
    | none =>
      have hv2 : p ∈ (parseLogStep gp att v).discarded :=
        mem_discarded_parseLog gp att v p hp
      split
      · exact hv2
      · split
        · exact hv2
        · exact ih (att + 1) _ p (mem_discarded_applyCorrection orc att _ p hv2)
    | some perr =>
      have hv2 : p ∈ (parseLogStep gp att
          (installFailureBookkeeping att perr v)).discarded :=
        mem_discarded_parseLog gp att _ p (mem_discarded_ifb att perr v p hp)
      split
      · exact hv2
      · split
        · exact hv2
        · exact ih (att + 1) _ p (mem_discarded_applyCorrection orc att _ p hv2)

theorem correctionLoopGo_head_call (orc : CorrectionOracles) (rem att : Nat)
    (v : LoopVars) :
    (correctionLoopGo orc (rem + 1) att v).installCalls.get? 0 =
      some (v.cur, v.curSys) := by
  simp only [correctionLoopGo]
  split
  · rfl
  · split
    · rfl
    · rfl

theorem getCount_nil (q : String) : getCount [] q = 0 := rfl

theorem ifb_no_discard (att : Nat) (e : String) (v : LoopVars)
    (hnone : v.cur.filter
      (fun q => decide (getCount (bumpCounts v.counts (v.cur ++ v.curSys)) q ≥ 2)) = [])
    (hnoneSys : v.curSys.filter
      (fun q => decide (getCount (bumpCounts v.counts (v.cur ++ v.curSys)) q ≥ 2)) = []) :
    (installFailureBookkeeping att e v).cur = v.cur ∧
    (installFailureBookkeeping att e v).curSys = v.curSys ∧
    (installFailureBookkeeping att e v).counts =
      bumpCounts v.counts (v.cur ++ v.curSys) ∧
    (installFailureBookkeeping att e v).discarded = v.discarded := by
  simp [installFailureBookkeeping, hnone, hnoneSys, removeDiscards_nil_right]

theorem ifb_discard_all (att : Nat) (e : String) (v : LoopVars)
    (hall : v.cur.filter
      (fun q => decide (getCount (bumpCounts v.counts (v.cur ++ v.curSys)) q ≥ 2)) = v.cur)
    (hallSys : v.curSys.filter
      (fun q => decide (getCount (bumpCounts v.counts (v.cur ++ v.curSys)) q ≥ 2)) = v.curSys)
    (hnd : v.cur.Nodup) (hndSys : v.curSys.Nodup) :
    (installFailureBookkeeping att e v).cur = [] ∧
    (installFailureBookkeeping att e v).curSys = [] ∧
    (installFailureBookkeeping att e v).discarded = v.discarded ++ v.cur := by
  simp [installFailureBookkeeping, hall, hallSys,
    removeDiscards_self v.cur hnd, removeDiscards_self v.curSys hndSys]

/-- Claim C4 counterexample: with the correction model re-specifying
`badpkg` in its returned package list on every attempt, `badpkg` fails
installation in the first two attempts (it is in the failing install lists
of attempts 1 and 2), reaches the discard threshold and is recorded as
discarded, yet the package list of the third attempt contains it again:
the correction step is applied after the discard step and overwrites the
shrunk lists. -/
theorem C4_counterexample :
    (correctionLoop readdOracles "x = 1" ["badpkg"] []).installCalls.get? 0 =
      some (["badpkg"], []) ∧
    (correctionLoop readdOracles "x = 1" ["badpkg"] []).installCalls.get? 1 =
      some (["badpkg"], []) ∧
    "badpkg" ∈ (correctionLoop readdOracles "x = 1" ["badpkg"] []).finalVars.discarded ∧
    (correctionLoop readdOracles "x = 1" ["badpkg"] []).installCalls.get? 2 =
      some (["badpkg"], []) := by
  exact ⟨by decide, by decide, by decide, by decide⟩

/-- Claim C4 (amended): a declared package whose per-package failure count
reaches 2 is removed from the current package lists at that moment and
recorded in the discarded-packages record, and it stays absent from later
attempts provided the correction-model responses do not re-introduce it
into the package lists; in particular, with corrections that leave the
package lists unchanged, a package failing installation in the first two
attempts is absent from the package list of the third attempt (which is
then empty, all packages of a failing bulk install being counted). -/
theorem C4_amended (orc : CorrectionOracles) (code p : String)
    (pkgs sysPkgs : List String)
    (hnodup : (pkgs ++ sysPkgs).Nodup)
    (hmem : p ∈ pkgs)
    (hfail0 : ∀ ps sps, (orc.install 0 ps sps).isSome = true)
    (hfail1 : ∀ ps sps, (orc.install 1 ps sps).isSome = true)
    (hpre : ∀ a ps sps r, orc.correct a ps sps = some r → r.2.1 = ps ∧ r.2.2 = sps) :
    (correctionLoop orc code pkgs sysPkgs).installCalls.get? 0 = some (pkgs, sysPkgs) ∧
    (correctionLoop orc code pkgs sysPkgs).installCalls.get? 1 = some (pkgs, sysPkgs) ∧
    (correctionLoop orc code pkgs sysPkgs).installCalls.get? 2 = some ([], []) ∧
    p ∈ (correctionLoop orc code pkgs sysPkgs).finalVars.discarded := by
  obtain ⟨hndP, hndS, -⟩ := List.nodup_append.mp hnodup
  have hcount1 : ∀ q ∈ pkgs ++ sysPkgs,
      getCount (bumpCounts [] (pkgs ++ sysPkgs)) q = 1 := by
    intro q hq
    rw [getCount_bumpCounts, getCount_nil, List.count_eq_one_of_mem hnodup hq]
  have hcount2 : ∀ q ∈ pkgs ++ sysPkgs,
      getCount (bumpCounts (bumpCounts [] (pkgs ++ sysPkgs)) (pkgs ++ sysPkgs)) q = 2 := by
    intro q hq
    rw [getCount_bumpCounts, getCount_bumpCounts, getCount_nil,
      List.count_eq_one_of_mem hnodup hq]
  obtain ⟨e0, he0⟩ := Option.isSome_iff_exists.mp (hfail0 pkgs sysPkgs)
  have hfa : pkgs.filter (fun q =>
      decide (getCount (bumpCounts [] (pkgs ++ sysPkgs)) q ≥ 2)) = [] := by
    rw [List.filter_eq_nil_iff]
    intro q hq
    simp [hcount1 q (List.mem_append_left _ hq)]
  have hfb : sysPkgs.filter (fun q =>
      decide (getCount (bumpCounts [] (pkgs ++ sysPkgs)) q ≥ 2)) = [] := by
    rw [List.filter_eq_nil_iff]
    intro q hq
    simp [hcount1 q (List.mem_append_right _ hq)]
  obtain ⟨hb0c, hb0s, hb0n, hb0d⟩ :=
    ifb_no_discard 0 e0 (freshLoopVars code pkgs sysPkgs) hfa hfb
  obtain ⟨hf1c, hf1s, hf1n, hf1d⟩ :=
    failStepVars_fields orc 0 e0 (freshLoopVars code pkgs sysPkgs) hpre
  have hw1c : (failStepVars orc 0 e0 (freshLoopVars code pkgs sysPkgs)).cur = pkgs :=
    hf1c.trans hb0c
  have hw1s : (failStepVars orc 0 e0 (freshLoopVars code pkgs sysPkgs)).curSys = sysPkgs :=
    hf1s.trans hb0s
  have hw1n : (failStepVars orc 0 e0 (freshLoopVars code pkgs sysPkgs)).counts =
      bumpCounts [] (pkgs ++ sysPkgs) :=
    hf1n.trans hb0n
  have hw1d : (failStepVars orc 0 e0 (freshLoopVars code pkgs sysPkgs)).discarded = [] :=
    hf1d.trans hb0d
  obtain ⟨e1, he1⟩ := Option.isSome_iff_exists.mp
    (hfail1 (failStepVars orc 0 e0 (freshLoopVars code pkgs sysPkgs)).cur
            (failStepVars orc 0 e0 (freshLoopVars code pkgs sysPkgs)).curSys)
  have hfa1 : (failStepVars orc 0 e0 (freshLoopVars code pkgs sysPkgs)).cur.filter
      (fun q => decide (getCount (bumpCounts
        (failStepVars orc 0 e0 (freshLoopVars code pkgs sysPkgs)).counts
        ((failStepVars orc 0 e0 (freshLoopVars code pkgs sysPkgs)).cur ++
         (failStepVars orc 0 e0 (freshLoopVars code pkgs sysPkgs)).curSys)) q ≥ 2)) =
      (failStepVars orc 0 e0 (freshLoopVars code pkgs sysPkgs)).cur := by
    rw [hw1c, hw1s, hw1n, List.filter_eq_self]
    intro q hq
    simp [hcount2 q (List.mem_append_left _ hq)]
  have hfb1 : (failStepVars orc 0 e0 (freshLoopVars code pkgs sysPkgs)).curSys.filter
      (fun q => decide (getCount (bumpCounts
        (failStepVars orc 0 e0 (freshLoopVars code pkgs sysPkgs)).counts
        ((failStepVars orc 0 e0 (freshLoopVars code pkgs sysPkgs)).cur ++
         (failStepVars orc 0 e0 (freshLoopVars code pkgs sysPkgs)).curSys)) q ≥ 2)) =
      (failStepVars orc 0 e0 (freshLoopVars code pkgs sysPkgs)).curSys := by
    rw [hw1c, hw1s, hw1n, List.filter_eq_self]
    intro q hq
    simp [hcount2 q (List.mem_append_right _ hq)]
  obtain ⟨hb1c, hb1s, hb1d⟩ := ifb_discard_all 1 e1
    (failStepVars orc 0 e0 (freshLoopVars code pkgs sysPkgs)) hfa1 hfb1
    (by rw [hw1c]; exact hndP) (by rw [hw1s]; exact hndS)
  obtain ⟨hf2c, hf2s, hf2n, hf2d⟩ := failStepVars_fields orc 1 e1
    (failStepVars orc 0 e0 (freshLoopVars code pkgs sysPkgs)) hpre
  have hw2c : (failStepVars orc 1 e1
      (failStepVars orc 0 e0 (freshLoopVars code pkgs sysPkgs))).cur = [] :=
    hf2c.trans hb1c
  have hw2s : (failStepVars orc 1 e1
      (failStepVars orc 0 e0 (freshLoopVars code pkgs sysPkgs))).curSys = [] :=
    hf2s.trans hb1s
  have hw2d : (failStepVars orc 1 e1
      (failStepVars orc 0 e0 (freshLoopVars code pkgs sysPkgs))).discarded = pkgs := by
    rw [hf2d.trans hb1d, hw1d, hw1c]
    simp
  have hstep0 := correctionLoopGo_fail_step orc 3 0 (freshLoopVars code pkgs sysPkgs) e0 he0
  have hstep1 := correctionLoopGo_fail_step orc 2 1
    (failStepVars orc 0 e0 (freshLoopVars code pkgs sysPkgs)) e1 he1
  have hrun : correctionLoop orc code pkgs sysPkgs =
      correctionLoopGo orc (3 + 2) 0 (freshLoopVars code pkgs sysPkgs) := rfl
  rw [hrun, hstep0, show (3 : Nat) + 1 = 2 + 2 from rfl,
    show (0 : Nat) + 1 = 1 from rfl, hstep1]
  refine ⟨rfl, ?_, ?_, ?_⟩
  · simp only [List.get?_cons_succ, List.get?_cons_zero]
    rw [hw1c, hw1s]
  · simp only [List.get?_cons_succ]
    rw [correctionLoopGo_head_call orc 2 (1 + 1)
      (failStepVars orc 1 e1 (failStepVars orc 0 e0 (freshLoopVars code pkgs sysPkgs)))]
    rw [hw2c, hw2s]
  · exact correctionLoopGo_discarded_mono orc (2 + 1) (1 + 1)
      (failStepVars orc 1 e1 (failStepVars orc 0 e0 (freshLoopVars code pkgs sysPkgs)))
      p (by rw [hw2d]; exact hmem)

/-- Claim C4 witness: the amended theorem applied to a single declared
package with installs failing on the first two attempts and
list-preserving corrections. -/
theorem C4_witness :
    (["badpkg"] ++ ([] : List String)).Nodup ∧
    (correctionLoop preserveOracles "x = 1" ["badpkg"] []).installCalls.get? 2 =
      some ([], []) ∧
    "badpkg" ∈ (correctionLoop preserveOracles "x = 1" ["badpkg"] []).finalVars.discarded := by
  have h := C4_amended preserveOracles "x = 1" "badpkg" ["badpkg"] []
    (by decide) (by decide) (fun ps sps => rfl) (fun ps sps => rfl)
    (fun a ps sps r hr => by
      have h2 := Option.some.inj hr
      rw [← h2]
      exact ⟨rfl, rfl⟩)
  exact ⟨by decide, h.2.2.1, h.2.2.2⟩

end Prisma
